import Mathlib

/-!
Verification of the schema-driven validation engine of CBIIT/prefect-toolkit.

The definitions below are a shallow embedding of the Python source:

* `src/commons/utils.py` — `ReadSubmTsv.get_type`;
* `src/commons/datamodel.py` — `ReadDataModel._read_each_prop` (required-flag
  handling and property-type classification);
* `src/commons/submval.py` — the per-column cores of the six validation rules
  (required properties, whitespace, terms/value sets, numeric/integer,
  cross links, unique key).

Modelling conventions:

* A cell of a record table is an `Option String`; `none` is a pandas NA
  (produced by `read_tsv` for "", "NA", "na", "N/A", "n/a").
* Python strings are Lean `String`s; the primitives the source relies on
  (`in` substring test, `str.split`, `str.strip`) are implemented over
  `List Char` so that all definitions evaluate inside the kernel.
* `pandas.Series.unique()` and Python `list(set(...))` both return the
  distinct elements of a sequence; `unique()` in first-occurrence order,
  `set` in an interpreter-dependent order.  Both are modelled with
  `List.dedup`; where the source's order is interpreter-dependent
  (`list(set(...))` in `_validate_terms_value_sets_one_file`) the model takes
  an explicit reordering parameter `ord`, which for a faithful interpreter
  state is some permutation of its argument.
* Python exceptions are modelled with `Except PyErr`.
-/

namespace PrefectToolkit

/-- Python exceptions raised (or raisable) by the embedded code paths. -/
inductive PyErr where
  | valueError (msg : String)
  | indexError
  | typeError (msg : String)
  | keyError (key : String)
  | unboundLocalError
deriving DecidableEq, Repr

/-- Characters treated as whitespace by Python `str.strip()` (ASCII range). -/
def isPySpace (c : Char) : Bool :=
  c = ' ' || c = '\t' || c = '\n' || c = '\x0d' || c = '\x0b' || c = '\x0c'

/-- Python `s.strip()`: drop leading and trailing whitespace. -/
def pyStrip (s : String) : String :=
  String.mk (((s.toList.dropWhile isPySpace).reverse.dropWhile isPySpace).reverse)

/-- Python `sub in s`: substring containment. -/
def pyContains (s sub : String) : Bool :=
  decide (sub.toList <:+: s.toList)

/-- Helper for `pySplit`; `fuel` bounds the recursion (any `fuel` larger than
the length of the remaining text gives Python's behaviour), `cur` holds the
current chunk reversed. -/
def pySplitAux (d : List Char) : Nat → List Char → List Char → List (List Char)
  | _, [], cur => [cur.reverse]
  | 0, rest, cur => [cur.reverse ++ rest]
  | fuel + 1, c :: rest, cur =>
    if !d.isEmpty && d.isPrefixOf (c :: rest) then
      cur.reverse :: pySplitAux d fuel (List.drop d.length (c :: rest)) []
    else
      pySplitAux d fuel rest (c :: cur)

/-- Python `v.split(delim)` for a non-empty delimiter. -/
def pySplit (v delim : String) : List String :=
  (pySplitAux delim.toList (v.toList.length + 1) v.toList []).map String.mk

/-- One validation finding for one column, as the rules build them:
`check` is the severity cell ("PASS", "ERROR", "WARNING\nfree strings allowed",
"ERROR\nunrecognized value", "empty"), `detail` the joined error rows/values
cell ("error row" / "error value" in the source dictionaries). -/
structure Finding where
  check : String
  detail : String
deriving DecidableEq, Repr

/-- `utils.py`, `ReadSubmTsv.get_type`: the argument is the `type` column of
the tsv file (`none` when the column is absent).  `unique()` is modelled by
`List.dedup`; the final `type_uniq[0]` on an empty array is an `IndexError`. -/
def get_type (typeCol : Option (List (Option String))) : Except PyErr (Option String) :=
  match typeCol with
  | none => .error (.valueError "cannot find type column in the file")
  | some col =>
    if 1 < col.dedup.length then
      .error (.valueError "more than one type value were found in file")
    else
      match col.dedup with
      | [] => .error .indexError
      | x :: _ => .ok x

/-- A value of the `Req` field of a property description: the CCDI dialect
uses booleans, the ICDC dialect the strings "Yes" / "No" / "Preferred". -/
inductive ReqVal where
  | boolVal (b : Bool)
  | strVal (s : String)
deriving DecidableEq, Repr

/-- `datamodel.py`, `_read_each_prop` lines 204-207: the `Req` field is passed
through verbatim; when absent it defaults to the string "No". -/
def readReq (req : Option ReqVal) : ReqVal :=
  req.getD (.strVal "No")

/-- `submval.py`, `validate_required_properties` lines 190-193: if "Yes"
occurs anywhere in the normalized `Required` column the dialect is tri-valued
and the required marker is "Yes"; otherwise the marker is boolean `True`. -/
def requiredMarker (reqColumn : List ReqVal) : ReqVal :=
  if reqColumn.contains (.strVal "Yes") then .strVal "Yes" else .boolVal true

/-- `submval.py`, `validate_required_properties` lines 195-199: a property is
selected as required exactly when its `Required` value equals the marker. -/
def isSelectedRequired (reqColumn : List ReqVal) (v : ReqVal) : Bool :=
  v == requiredMarker reqColumn

/-- The spec's tri-state for the `required` flag of a `SchemaProperty`. -/
inductive TriState where
  | triTrue
  | triFalse
  | triUnknown
deriving DecidableEq, Repr

/-- Modelled from the spec (refinement target, not from the source):
"booleans pass through; tri-valued dialects map Yes to true, anything else to
unknown (not false)". -/
def specRequiredAbstraction : ReqVal → TriState
  | .boolVal true => .triTrue
  | .boolVal false => .triFalse
  | .strVal s => if s = "Yes" then .triTrue else .triUnknown

/-- The value under the `value_type` key of a `Type` mapping: either a YAML
string or some non-string YAML value (the source only distinguishes these two
cases, via `==` against names and `isinstance(..., str)`). -/
inductive VTVal where
  | strName (s : String)
  | nonStr
deriving DecidableEq, Repr

/-- A `Type` field that is a YAML mapping: presence/value of its
`value_type`, `Type` (item type name) and `Enum` keys. -/
structure TypeDict where
  value_type : Option VTVal
  typeItem : Option String
  enumVals : Option (List String)
deriving DecidableEq, Repr

/-- The `Type` field of a property description: a plain YAML string,
a YAML list (contents never inspected by the source), or a mapping. -/
inductive TypeVal where
  | scalar (s : String)
  | yamlList
  | dict (d : TypeDict)
deriving DecidableEq, Repr

/-- The fields of a property description blob read by `_read_each_prop` that
the classification logic touches (`Desc`, `Term`, `Key` are dropped: they do
not influence type, enum list or required flag). -/
structure PropDict where
  typeVal : Option TypeVal
  enumVals : Option (List String)
  strict : Option Bool
  req : Option ReqVal
deriving DecidableEq, Repr

/-- `datamodel.py`, `_read_each_prop` lines 215-298: classification of the
property type together with the extracted enum list.  Error cases are exactly
the source's uncaught exceptions: `KeyError` when the `string`+`Enum` branch
evaluates an absent `prop_dict["Strict"]`, `TypeError` when `value_type` holds
a non-string value, and `UnboundLocalError` when neither `Type` nor `Enum`
exists (the function falls through to `return` with `prop_type` unbound). -/
def readPropTypeEnum (p : PropDict) : Except PyErr (String × List String) :=
  match p.typeVal with
  | some (.scalar s) => .ok (s, [])
  | some .yamlList => .ok ("string", [])
  | some (.dict d) =>
    match d.value_type with
    | none => .ok ("string", d.enumVals.getD [])
    | some vt =>
      if vt = .strName "string" ∧ d.enumVals.isSome then
        match p.strict with
        | none => .error (.keyError "Strict")
        | some false => .ok ("string;enum", d.enumVals.getD [])
        | some true => .ok ("enum", d.enumVals.getD [])
      else if vt = .strName "list" ∧ d.typeItem.isSome then
        .ok ("array[string]", d.enumVals.getD [])
      else if vt = .strName "list" ∧ d.enumVals.isSome then
        match p.strict with
        | none => .ok ("array[enum]", d.enumVals.getD [])
        | some true => .ok ("array[enum]", d.enumVals.getD [])
        | some false => .ok ("array[string;enum]", d.enumVals.getD [])
      else
        match vt with
        | .strName s => .ok (s, d.enumVals.getD [])
        | .nonStr => .error (.typeError "Can not categorize property type")
  | none =>
    match p.enumVals with
    | some es => .ok ("enum", es)
    | none => .error .unboundLocalError

/-- The property description used as concrete input for the list-item claim:
Type is a mapping with value_type "list" and an item type declared as
"integer". -/
def listOfIntegerProp : PropDict :=
  ⟨some (.dict ⟨some (.strName "list"), some "integer", none⟩), none, none, none⟩

/-- `submval.py`, `_validate_required_properties_one_file` line 142:
positions (0-based row index + 2) of the NA cells of a column. -/
def naPositions (col : List (Option String)) : List Nat :=
  ((List.range col.length).filter (fun i => (col.getD i (some "")).isNone)).map
    (fun i => i + 2)

/-- `submval.py`, `_validate_required_properties_one_file` lines 141-149:
per-column finding of the required-properties rule. -/
def reqColFinding (col : List (Option String)) : Finding :=
  if 0 < (naPositions col).length then
    ⟨"ERROR", String.intercalate "," ((naPositions col).map toString)⟩
  else
    ⟨"PASS", ""⟩

/-- `submval.py`, `_validate_required_properties_one_file` line 125:
required property names absent from the file's columns. -/
def unfoundRequired (reqPropList columns : List String) : List String :=
  reqPropList.filter (fun p => !columns.contains p)

/-- `submval.py`, `_validate_terms_value_sets_one_file` lines 341-354: the
tokens contributed by one cell of an array-typed column: split on the commons
delimiter when the delimiter occurs in the cell, else the whole cell. -/
def cellTokens (delim v : String) : List String :=
  if pyContains v delim then pySplit v delim else [v]

/-- `submval.py`, `_validate_terms_value_sets_one_file` lines 339-359: the
invalid tokens of an array-typed column — tokens of the distinct cell values
that are not among the allowed enum values, deduplicated by
`list(set(invalid_list))`.  `ord` models the interpreter's set-iteration
order; a faithful instance is a permutation of its argument. -/
def invalidTokens (ord : List String → List String) (delim : String)
    (allowed uniqueValues : List String) : List String :=
  ord (((uniqueValues.map
    (fun v => (cellTokens delim v).filter (fun t => !allowed.contains t))).flatten).dedup)

/-- `submval.py`, `_validate_terms_value_sets_one_file` lines 365-370 and
389-394: severity when invalid values exist. -/
def enumCheckStr (propertyType : String) : String :=
  if pyContains propertyType "string" then "WARNING\nfree strings allowed"
  else "ERROR\nunrecognized value"

/-- `submval.py`, `_validate_terms_value_sets_one_file` lines 362-363:
invalid values are bracketed and joined. -/
def bracketJoin (invalid : List String) : String :=
  String.intercalate ",\n" (invalid.map (fun i => "[" ++ i ++ "]"))

/-- `submval.py`, `_validate_terms_value_sets_one_file` lines 327-397:
per-column finding of the terms/value-sets rule.  `uniqueValues` of the
source is the distinct non-NA cells `(col.filterMap id).dedup`. -/
def enumColFinding (ord : List String → List String) (delim propertyType : String)
    (allowed : List String) (col : List (Option String)) : Finding :=
  if ((col.filterMap id).dedup).length = 0 then
    ⟨"empty", ""⟩
  else if pyContains propertyType "array" then
    if 0 < (invalidTokens ord delim allowed ((col.filterMap id).dedup)).length then
      ⟨enumCheckStr propertyType,
        bracketJoin (invalidTokens ord delim allowed ((col.filterMap id).dedup))⟩
    else
      ⟨"PASS", ""⟩
  else
    if 0 < (((col.filterMap id).dedup).filter (fun v => !allowed.contains v)).length then
      ⟨enumCheckStr propertyType,
        bracketJoin (((col.filterMap id).dedup).filter (fun v => !allowed.contains v))⟩
    else
      ⟨"PASS", ""⟩

/-- `submval.py`, `_validate_numeric_integer_one_file` lines 484-527:
per-column finding of the numeric/integer rule.  `isValidNum` abstracts the
Python `float(...)`/`int(...)` parse acceptance for the column's declared
type; no claim depends on the parser itself. -/
def numericColFinding (isValidNum : String → Bool) (col : List (Option String)) : Finding :=
  if (col.filterMap id).length ≠ 0 then
    if 0 < (((List.range col.length).filter
        (fun i => ((col.getD i none).map (fun v => !isValidNum v)).getD false)).map
          (fun i => i + 2)).length then
      ⟨"ERROR",
        String.intercalate "," ((((List.range col.length).filter
          (fun i => ((col.getD i none).map (fun v => !isValidNum v)).getD false)).map
            (fun i => i + 2)).map toString)⟩
    else
      ⟨"PASS", ""⟩
  else
    ⟨"empty", ""⟩

/-- `submval.py`, `_validate_unique_key_id_one_file` lines 764-791:
per-column finding of the unique-key rule. -/
def uniqueKeyColFinding (col : List (Option String)) : Finding :=
  if !(col.filterMap id).isEmpty then
    if (col.filterMap id).length ≠ ((col.filterMap id).dedup).length then
      ⟨"ERROR",
        String.intercalate ","
          (((col.filterMap id).filter
            (fun v => 1 < (col.filterMap id).count v)).dedup)⟩
    else
      ⟨"PASS", ""⟩
  else
    ⟨"empty", ""⟩

/-- `submval.py`, `_validate_whitespace_issue_one_file` lines 227-250:
whether a column is reported at all by the whitespace rule (entirely NA
columns are skipped silently). -/
def whitespaceColReported (col : List (Option String)) : Bool :=
  if !(col.filterMap id).isEmpty then
    col.any (fun c => (c.getD "") != ((c.map pyStrip).getD ""))
  else
    false

/-- `submval.py`, `_validate_cross_links_one_file` lines 630-632: the
distinct non-NA values of one row restricted to the linking columns
(`set(row[link_props].dropna().tolist())`). -/
def distinctLinkValues (row : List (Option String)) : List String :=
  (row.filterMap id).dedup

/-- `submval.py`, `_validate_cross_links_one_file` lines 628-635: the line
numbers (row index + 2) of the rows whose linking columns hold more than one
distinct non-NA value. -/
def crossLinkMultiRows (rows : List (List (Option String))) : List Nat :=
  ((List.range rows.length).filter
    (fun i => 1 < (distinctLinkValues (rows.getD i [])).length)).map (fun i => i + 2)

/-- `submval.py`, `_validate_cross_links_one_file` lines 627-645: the
multiple-links warning list; the scan only runs when the file has more than
one linking column. -/
def crossLinkMultiWarn (linkPropCount : Nat) (rows : List (List (Option String))) : List Nat :=
  if 1 < linkPropCount then crossLinkMultiRows rows else []

end PrefectToolkit

namespace PrefectToolkit

/-! Helper lemmas shared by the claim theorems. -/

theorem filterMap_id_eq_nil (col : List (Option String)) (h : ∀ v ∈ col, v = none) :
    col.filterMap id = [] := by
  rw [List.filterMap_eq_nil_iff]
  intro a ha
  rw [h a ha]
  rfl

theorem mem_naPositions (col : List (Option String)) (i : Nat) :
    i + 2 ∈ naPositions col ↔ i < col.length ∧ col.getD i (some "") = none := by
  unfold naPositions
  simp only [List.mem_map, List.mem_filter, List.mem_range, Option.isNone_iff_eq_none]
  constructor
  · rintro ⟨j, ⟨hj, hja⟩, hji⟩
    have hj' : j = i := by omega
    subst hj'
    exact ⟨hj, hja⟩
  · intro h
    exact ⟨i, ⟨h.1, h.2⟩, rfl⟩

theorem naPositions_eq_nil (col : List (Option String)) (h : ∀ v ∈ col, v ≠ none) :
    naPositions col = [] := by
  unfold naPositions
  rw [List.map_eq_nil_iff, List.filter_eq_nil_iff]
  intro j hj
  rw [List.mem_range] at hj
  rw [List.getD_eq_getElem _ _ hj]
  simp only [Option.isNone_iff_eq_none]
  exact h _ (List.getElem_mem hj)

theorem mem_invalidTokens (ord : List String → List String) (hord : ∀ l, (ord l).Perm l)
    (delim : String) (allowed uniqueValues : List String) (t : String) :
    t ∈ invalidTokens ord delim allowed uniqueValues ↔
      (allowed.contains t = false ∧ ∃ v ∈ uniqueValues, t ∈ cellTokens delim v) := by
  unfold invalidTokens
  rw [(hord _).mem_iff, List.mem_dedup, List.mem_flatten]
  constructor
  · rintro ⟨l, hl, htl⟩
    rw [List.mem_map] at hl
    obtain ⟨v, hv, rfl⟩ := hl
    rw [List.mem_filter] at htl
    refine ⟨?_, v, hv, htl.1⟩
    simpa using htl.2
  · rintro ⟨hna, v, hv, htv⟩
    refine ⟨_, List.mem_map_of_mem _ hv, List.mem_filter.mpr ⟨htv, ?_⟩⟩
    simpa using hna

end PrefectToolkit

namespace PrefectToolkit

/-- C1: Required-flag normalization passes boolean `Req` values through
unchanged; under the spec's tri-state abstraction an absent `Req` maps to
unknown and no string value ever maps to false; and for a tri-valued
(all-string) `Required` column the downstream filter of
`validate_required_properties` selects a property exactly when its normalized
value abstracts to true, i.e. is "Yes" — so unknown and not-required values
are alike never selected, and nothing but "Yes" acts as required. -/
theorem required_flag_normalization (reqColumn : List ReqVal) :
    (∀ b : Bool, readReq (some (.boolVal b)) = .boolVal b) ∧
    specRequiredAbstraction (readReq none) = .triUnknown ∧
    (∀ s : String, specRequiredAbstraction (.strVal s) ≠ .triFalse) ∧
    ((∀ v ∈ reqColumn, ∃ s, v = ReqVal.strVal s) →
      ∀ v ∈ reqColumn,
        (isSelectedRequired reqColumn v = true ↔
          specRequiredAbstraction v = .triTrue)) := by
  refine ⟨fun b => rfl, rfl, ?_, ?_⟩
  · intro s
    by_cases hs : s = "Yes" <;> simp [specRequiredAbstraction, hs]
  · intro hall v hv
    obtain ⟨s, rfl⟩ := hall v hv
    unfold isSelectedRequired requiredMarker specRequiredAbstraction
    by_cases hY : ReqVal.strVal "Yes" ∈ reqColumn
    · by_cases hs : s = "Yes" <;> simp [hY, hs]
    · have hs : s ≠ "Yes" := fun h => hY (h ▸ hv)
      simp [hY, hs]

/-- C1 witness: in the concrete tri-valued column ["Yes", "No"], the value
"No" is selected as required exactly when its abstraction is true (both
sides are false). -/
theorem required_flag_normalization_witness :
    isSelectedRequired [ReqVal.strVal "Yes", ReqVal.strVal "No"] (ReqVal.strVal "No") = true ↔
      specRequiredAbstraction (ReqVal.strVal "No") = TriState.triTrue :=
  (required_flag_normalization [ReqVal.strVal "Yes", ReqVal.strVal "No"]).2.2.2
    (by
      intro v hv
      simp only [List.mem_cons, List.not_mem_nil, or_false] at hv
      rcases hv with rfl | rfl
      · exact ⟨"Yes", rfl⟩
      · exact ⟨"No", rfl⟩)
    (ReqVal.strVal "No") (by simp)

/-- C2 counterexample: a list-typed property declaring a non-enumerated item
kind "integer" is normalized to "array[string]", not "array[integer]" — the
declared item kind is never inspected by `_read_each_prop`. -/
theorem list_item_type_not_inspected_cex :
    readPropTypeEnum listOfIntegerProp = .ok ("array[string]", []) ∧
    listOfIntegerProp.typeVal =
      some (TypeVal.dict ⟨some (.strName "list"), some "integer", none⟩) ∧
    ("array[string]" : String) ≠ "array[integer]" := by
  refine ⟨rfl, rfl, by decide⟩

/-- C2 (amended): for a structured type with finite-vocabulary value kind
(value_type "string" with an Enum), strict true gives "enum" and strict false
gives "string;enum"; for a list value kind with an Enum and no item-type key,
the same strict logic gives "array[enum]" / "array[string;enum]"; but a list
value kind with a declared item-type key normalizes to "array[string]"
regardless of the declared item kind (not to array[item-type]). -/
theorem type_normalization_strict_logic (d : TypeDict) (p : PropDict) (es : List String)
    (hp : p.typeVal = some (.dict d)) (he : d.enumVals = some es) :
    (d.value_type = some (.strName "string") → p.strict = some true →
        readPropTypeEnum p = .ok ("enum", es)) ∧
    (d.value_type = some (.strName "string") → p.strict = some false →
        readPropTypeEnum p = .ok ("string;enum", es)) ∧
    (d.value_type = some (.strName "list") → d.typeItem = none → p.strict = some true →
        readPropTypeEnum p = .ok ("array[enum]", es)) ∧
    (d.value_type = some (.strName "list") → d.typeItem = none → p.strict = some false →
        readPropTypeEnum p = .ok ("array[string;enum]", es)) ∧
    (∀ it, d.typeItem = some it → d.value_type = some (.strName "list") →
        readPropTypeEnum p = .ok ("array[string]", es)) := by
  have hls : VTVal.strName "list" ≠ VTVal.strName "string" := by decide
  refine ⟨?_, ?_, ?_, ?_, ?_⟩
  · intro hvt hst
    simp [readPropTypeEnum, hp, hvt, hst, he]
  · intro hvt hst
    simp [readPropTypeEnum, hp, hvt, hst, he]
  · intro hvt hit hst
    simp [readPropTypeEnum, hp, hvt, hit, hst, he, hls]
  · intro hvt hit hst
    simp [readPropTypeEnum, hp, hvt, hit, hst, he, hls]
  · intro it hit hvt
    simp [readPropTypeEnum, hp, hvt, hit, he, hls]

/-- C2 witness: a concrete strict value-set property normalizes to "enum". -/
theorem type_normalization_strict_logic_witness :
    readPropTypeEnum
        ⟨some (.dict ⟨some (.strName "string"), none, some ["A"]⟩), none, some true, none⟩ =
      .ok ("enum", ["A"]) :=
  (type_normalization_strict_logic ⟨some (.strName "string"), none, some ["A"]⟩
    ⟨some (.dict ⟨some (.strName "string"), none, some ["A"]⟩), none, some true, none⟩
    ["A"] rfl rfl).1 rfl rfl

/-- C7: a structured type whose value_type key holds a non-string value
cannot be classified and `_read_each_prop` fails with an uncaught exception
(the source's TypeError, the spec's SchemaFormatError); a property declaring
neither a Type structure nor an Enum list also fails fatally (the source
falls through to its return statement with prop_type unbound). -/
theorem unclassifiable_type_fails (p : PropDict) (d : TypeDict) :
    (p.typeVal = some (.dict d) → d.value_type = some .nonStr →
        readPropTypeEnum p = .error (.typeError "Can not categorize property type")) ∧
    (p.typeVal = none → p.enumVals = none →
        readPropTypeEnum p = .error .unboundLocalError) := by
  constructor
  · intro hp hvt
    simp [readPropTypeEnum, hp, hvt]
  · intro hp he
    simp [readPropTypeEnum, hp, he]

/-- C7 witness: concrete failing inputs for both fatal cases. -/
theorem unclassifiable_type_fails_witness :
    readPropTypeEnum ⟨none, none, none, none⟩ = .error .unboundLocalError :=
  (unclassifiable_type_fails ⟨none, none, none, none⟩ ⟨none, none, none⟩).2 rfl rfl

end PrefectToolkit

namespace PrefectToolkit

/-- C3: in the terms/value-sets rule, for a non-empty array-typed enum
column, a token is reported invalid exactly when some cell yields it (split
on the commons delimiter when the delimiter occurs in the cell, else the
whole cell) and it is not among the allowed values; the reported tokens are
deduplicated; the finding is PASS with no invalid token and otherwise carries
the severity "WARNING free strings allowed" when the property type contains
"string" and "ERROR unrecognized value" otherwise; in particular the cell
"A;Z" with delimiter ";" against allowed ["A","B"] reports exactly the one
invalid token "Z". -/
theorem terms_value_sets_array_rule (ord : List String → List String)
    (hord : ∀ l, (ord l).Perm l) (delim propertyType : String)
    (allowed : List String) (col : List (Option String))
    (hne : col.filterMap id ≠ []) (harr : pyContains propertyType "array" = true) :
    (∀ t, t ∈ invalidTokens ord delim allowed ((col.filterMap id).dedup) ↔
        (allowed.contains t = false ∧ ∃ v, some v ∈ col ∧ t ∈ cellTokens delim v)) ∧
    (invalidTokens ord delim allowed ((col.filterMap id).dedup)).Nodup ∧
    (invalidTokens ord delim allowed ((col.filterMap id).dedup) = [] →
        enumColFinding ord delim propertyType allowed col = ⟨"PASS", ""⟩) ∧
    (invalidTokens ord delim allowed ((col.filterMap id).dedup) ≠ [] →
        enumColFinding ord delim propertyType allowed col =
          ⟨enumCheckStr propertyType,
            bracketJoin (invalidTokens ord delim allowed ((col.filterMap id).dedup))⟩) ∧
    invalidTokens id ";" ["A", "B"] ["A;Z"] = ["Z"] ∧
    (enumColFinding id ";" "array[enum]" ["A", "B"] [some "A;Z"]).check =
      "ERROR\nunrecognized value" := by
  have hlen : ¬((col.filterMap id).dedup.length = 0) := by
    rw [List.length_eq_zero, List.dedup_eq_nil]
    exact hne
  refine ⟨?_, ?_, ?_, ?_, by decide, by decide⟩
  · intro t
    rw [mem_invalidTokens ord hord]
    constructor
    · rintro ⟨h1, v, hv, h2⟩
      rw [List.mem_dedup, List.mem_filterMap] at hv
      obtain ⟨a, ha, haa⟩ := hv
      refine ⟨h1, v, ?_, h2⟩
      exact (show a = some v from haa) ▸ ha
    · rintro ⟨h1, v, hv, h2⟩
      refine ⟨h1, v, ?_, h2⟩
      rw [List.mem_dedup, List.mem_filterMap]
      exact ⟨some v, hv, rfl⟩
  · exact (hord _).nodup_iff.mpr (List.nodup_dedup _)
  · intro h0
    unfold enumColFinding
    simp [hlen, harr, h0]
  · intro hne0
    have hpos := List.length_pos.mpr hne0
    unfold enumColFinding
    simp [hlen, harr, hpos]

/-- C3 witness: the concrete single-cell instance from the claim. -/
theorem terms_value_sets_array_rule_witness :
    (enumColFinding id ";" "array[enum]" ["A", "B"] [some "A;Z"]).check =
      "ERROR\nunrecognized value" :=
  (terms_value_sets_array_rule id (fun l => List.Perm.refl l) ";" "array[enum]"
    ["A", "B"] [some "A;Z"] (by decide) (by decide)).2.2.2.2.2

/-- C9: array-cell tokens are compared without whitespace trimming: the cell
"A; B" with delimiter ";" splits into ["A", " B"], and the token " B" is
reported invalid even when "B" is among the allowed values. -/
theorem tokens_not_trimmed (allowed : List String)
    (hA : "A" ∈ allowed) (hB : "B" ∈ allowed) (hnB : " B" ∉ allowed) :
    cellTokens ";" "A; B" = ["A", " B"] ∧
    invalidTokens id ";" allowed ["A; B"] = [" B"] ∧
    (∀ ord : List String → List String, (∀ l, (ord l).Perm l) →
        " B" ∈ invalidTokens ord ";" allowed ["A; B"]) := by
  have hc : cellTokens ";" "A; B" = ["A", " B"] := by decide
  have hbase : invalidTokens id ";" allowed ["A; B"] = [" B"] := by
    unfold invalidTokens
    simp [hc, hA, hnB, List.dedup_cons_of_not_mem]
  refine ⟨hc, hbase, ?_⟩
  intro ord hord
  rw [show invalidTokens ord ";" allowed ["A; B"] =
      ord (invalidTokens id ";" allowed ["A; B"]) from rfl]
  rw [(hord _).mem_iff, hbase]
  simp

/-- C9 witness: the concrete allowed list ["A", "B"]. -/
theorem tokens_not_trimmed_witness :
    invalidTokens id ";" ["A", "B"] ["A; B"] = [" B"] :=
  (tokens_not_trimmed ["A", "B"] (by decide) (by decide) (by decide)).2.1

/-- C4: in the required-properties rule, the unfound-property ERROR fires
exactly when some required property is absent from the file's columns; a row
contributes line number i + 2 to a required column's error listing exactly
when its cell at 0-based index i is NA; the listing is joined with commas
into an ERROR finding; a required column with zero missing values — in
particular a zero-row table — is PASS; and the spec's concrete instance
(3 rows, the row at index 2 blank) reports exactly line 4. -/
theorem required_properties_rule (reqPropList columns : List String)
    (col : List (Option String)) (i : Nat) :
    (unfoundRequired reqPropList columns ≠ [] ↔ ∃ prp ∈ reqPropList, prp ∉ columns) ∧
    (i + 2 ∈ naPositions col ↔ i < col.length ∧ col.getD i (some "") = none) ∧
    (naPositions col ≠ [] →
        reqColFinding col =
          ⟨"ERROR", String.intercalate "," ((naPositions col).map toString)⟩) ∧
    reqColFinding [] = ⟨"PASS", ""⟩ ∧
    ((∀ v ∈ col, v ≠ none) → reqColFinding col = ⟨"PASS", ""⟩) ∧
    reqColFinding [some "a", some "b", none] = ⟨"ERROR", "4"⟩ := by
  refine ⟨?_, mem_naPositions col i, ?_, by decide, ?_, by decide⟩
  · unfold unfoundRequired
    rw [ne_eq, List.filter_eq_nil_iff]
    simp
  · intro h
    have hpos := List.length_pos.mpr h
    unfold reqColFinding
    simp [hpos]
  · intro h
    have hnil := naPositions_eq_nil col h
    unfold reqColFinding
    simp [hnil]

/-- C4 witness: a one-row fully-populated required column is PASS. -/
theorem required_properties_rule_witness :
    reqColFinding [some "x"] = ⟨"PASS", ""⟩ :=
  (required_properties_rule [] [] [some "x"] 0).2.2.2.2.1 (by decide)

end PrefectToolkit

namespace PrefectToolkit

/-- C5 counterexample: a row populating two linking columns simultaneously
with the same value is NOT collected by the multiple-links scan — the source
tests the number of distinct non-NA link values, not the number of populated
linking columns.  Here both of the 2 linking columns are populated (2 non-NA
values) yet the warning list is empty. -/
theorem cross_links_same_value_not_flagged_cex :
    (([some "S1", some "S1"] : List (Option String)).filterMap id).length = 2 ∧
    crossLinkMultiWarn 2 [[some "S1", some "S1"]] = [] := by
  decide

/-- C5 (amended): for a file with more than one linking column, a row's line
number i + 2 is collected into the WARNING listing exactly when the row holds
more than one DISTINCT non-empty linking value; with at most one linking
column no warning is produced.  A row populating several linking columns with
one and the same value is not flagged. -/
theorem cross_links_distinct_multi (linkPropCount : Nat)
    (rows : List (List (Option String))) (i : Nat) (hn : 1 < linkPropCount) :
    (i + 2 ∈ crossLinkMultiWarn linkPropCount rows ↔
        i < rows.length ∧ 1 < (distinctLinkValues (rows.getD i [])).length) ∧
    (∀ m : Nat, m ≤ 1 → crossLinkMultiWarn m rows = []) := by
  constructor
  · unfold crossLinkMultiWarn
    rw [if_pos hn]
    unfold crossLinkMultiRows
    simp only [List.mem_map, List.mem_filter, List.mem_range, decide_eq_true_eq]
    constructor
    · rintro ⟨j, ⟨hj, hjd⟩, hji⟩
      have hj' : j = i := by omega
      subst hj'
      exact ⟨hj, hjd⟩
    · intro h
      exact ⟨i, ⟨h.1, h.2⟩, rfl⟩
  · intro m hm
    unfold crossLinkMultiWarn
    rw [if_neg (by omega)]

/-- C5 witness: a row with two distinct link values on a two-link-column file
is collected at line 2. -/
theorem cross_links_distinct_multi_witness :
    0 + 2 ∈ crossLinkMultiWarn 2 [[some "a", some "b"]] :=
  (cross_links_distinct_multi 2 [[some "a", some "b"]] 0 (by decide)).1.mpr (by decide)

/-- C6: a column with zero non-empty values yields the finding "empty" (never
ERROR or WARNING) in the terms/value-sets, numeric/integer and unique-key
rules, and is skipped silently by the whitespace rule. -/
theorem empty_column_no_error_warning (ord : List String → List String)
    (isValidNum : String → Bool) (delim propertyType : String)
    (allowed : List String) (col : List (Option String))
    (hcol : ∀ v ∈ col, v = none) :
    enumColFinding ord delim propertyType allowed col = ⟨"empty", ""⟩ ∧
    numericColFinding isValidNum col = ⟨"empty", ""⟩ ∧
    uniqueKeyColFinding col = ⟨"empty", ""⟩ ∧
    whitespaceColReported col = false := by
  have hnil : col.filterMap id = [] := filterMap_id_eq_nil col hcol
  refine ⟨?_, ?_, ?_, ?_⟩
  · unfold enumColFinding
    simp [hnil]
  · unfold numericColFinding
    simp [hnil]
  · unfold uniqueKeyColFinding
    simp [hnil]
  · unfold whitespaceColReported
    simp [hnil]

/-- C6 witness: a two-row all-NA column. -/
theorem empty_column_no_error_warning_witness :
    uniqueKeyColFinding [none, none] = ⟨"empty", ""⟩ :=
  (empty_column_no_error_warning id (fun v => true) ";" "enum" [] [none, none]
    (by decide)).2.2.1

/-- C8 counterexample: the byte content of the enum rule's error cell depends
on the iteration order of `list(set(invalid_list))`.  Both `id` and
`List.reverse` are permutations (admissible interpreter set orders), yet they
produce different error-cell text for the same input — so two runs under
different interpreter hash states are not byte-identical. -/
theorem enum_token_order_hash_dependent_cex :
    (List.reverse ["X", "Y"]).Perm ["X", "Y"] ∧
    invalidTokens id ";" ["A"] ["X;Y"] = ["X", "Y"] ∧
    invalidTokens List.reverse ";" ["A"] ["X;Y"] = ["Y", "X"] ∧
    (enumColFinding id ";" "array[enum]" ["A"] [some "X;Y"]).detail ≠
      (enumColFinding List.reverse ";" "array[enum]" ["A"] [some "X;Y"]).detail := by
  refine ⟨List.reverse_perm _, by decide, by decide, by decide⟩

/-- C8 (amended): the rule pipeline is a pure function of its inputs and the
interpreter's set-iteration order, so two runs with the same order (same
process/hash seed) are byte-identical; across any two admissible orders the
set of reported invalid tokens and the severity of every finding coincide —
only the textual order of tokens inside the error cell may differ. -/
theorem enum_rule_order_insensitive_content (o₁ o₂ : List String → List String)
    (h₁ : ∀ l, (o₁ l).Perm l) (h₂ : ∀ l, (o₂ l).Perm l)
    (delim propertyType : String) (allowed : List String) (col : List (Option String)) :
    (∀ t, t ∈ invalidTokens o₁ delim allowed ((col.filterMap id).dedup) ↔
        t ∈ invalidTokens o₂ delim allowed ((col.filterMap id).dedup)) ∧
    (enumColFinding o₁ delim propertyType allowed col).check =
      (enumColFinding o₂ delim propertyType allowed col).check := by
  have hl : (invalidTokens o₁ delim allowed ((col.filterMap id).dedup)).length =
      (invalidTokens o₂ delim allowed ((col.filterMap id).dedup)).length := by
    unfold invalidTokens
    rw [(h₁ _).length_eq, (h₂ _).length_eq]
  constructor
  · intro t
    unfold invalidTokens
    rw [(h₁ _).mem_iff, (h₂ _).mem_iff]
  · unfold enumColFinding
    by_cases h0 : ((col.filterMap id).dedup).length = 0
    · simp [h0]
    · by_cases ha : pyContains propertyType "array" = true
      · rw [if_neg h0, if_neg h0, if_pos ha, if_pos ha]
        by_cases hi : 0 < (invalidTokens o₁ delim allowed ((col.filterMap id).dedup)).length
        · rw [if_pos hi, if_pos (hl ▸ hi)]
        · rw [if_neg hi, if_neg (hl ▸ hi)]
      · rw [if_neg h0, if_neg h0, if_neg ha, if_neg ha]

/-- C8 witness: the two concrete admissible orders agree on severity for the
counterexample input. -/
theorem enum_rule_order_insensitive_content_witness :
    (enumColFinding id ";" "array[enum]" ["A"] [some "X;Y"]).check =
      (enumColFinding List.reverse ";" "array[enum]" ["A"] [some "X;Y"]).check :=
  (enum_rule_order_insensitive_content id List.reverse (fun l => List.Perm.refl l)
    (fun l => List.reverse_perm l) ";" "array[enum]" ["A"] [some "X;Y"]).2

/-- C10: `get_type` raises ValueError exactly when the type column is missing
or holds more than one distinct value; a present type column with zero data
rows instead hits the unguarded `type_uniq[0]` and fails with IndexError, so
the operation is not total over tables with a type column. -/
theorem get_type_error_conditions :
    (∃ m, get_type none = Except.error (PyErr.valueError m)) ∧
    (∀ col : List (Option String),
        ((∃ m, get_type (some col) = Except.error (PyErr.valueError m)) ↔
          1 < col.dedup.length)) ∧
    get_type (some []) = Except.error PyErr.indexError := by
  refine ⟨⟨_, rfl⟩, ?_, rfl⟩
  intro col
  constructor
  · rintro ⟨m, hm⟩
    by_cases h : 1 < col.dedup.length
    · exact h
    · simp only [get_type] at hm
      rw [if_neg h] at hm
      rcases hcd : col.dedup with _ | ⟨x, xs⟩ <;> rw [hcd] at hm <;> simp at hm
  · intro h
    refine ⟨"more than one type value were found in file", ?_⟩
    simp only [get_type]
    rw [if_pos h]

end PrefectToolkit
